import Mathlib

/-!
Verification development for the MCCI LTR-329ALS light-sensor driver.

The definitions below are a shallow embedding of the driver sources:

* the register bit-field primitives of `LTR_329ALS_PARAMS::Field_t`
  (mcci_ltr_329als_regs.h), with 8-bit register images represented as
  `Nat` values, truncation written explicitly as `% 256`;
* the gain / measurement-rate / integration-time code tables of
  `AlsGain_t` and `AlsMeasRate_t`;
* the data-buffer class `DataRegs_t` with its lux computation
  (IEEE float arithmetic is modelled as exact rational arithmetic);
* the measurement state machine `Ltr_329als` (mcci_ltr_329als.cpp /
  mcci_ltr_329als.h): `configure`, `startMeasurement`, `queryReady`,
  `setStandby`, `getLux`.  The I2C bus and the millisecond clock are
  external collaborators; one call's interactions with them are
  supplied by a `BusEnv` record, and each operation also returns the
  list of register writes it attempted, so "no bus traffic" is a
  statement about that list.
-/

namespace Ltr329

/-- `Field_t::fieldlsb` (mcci_ltr_329als_regs.h): least significant set bit
of an 8-bit mask, `fmask & (~fmask + 1)` in two's-complement form. -/
def fieldlsb (m : Nat) : Nat :=
  m &&& ((256 - m % 256) % 256)

/-- `Field_t::fieldget`: extract the bits of `v` under mask `m` and
right-justify them. -/
def fieldget (m v : Nat) : Nat :=
  (v &&& m) / fieldlsb m

/-- `Field_t::fieldset`: `(val & ~fmask) | (fv * fieldlsb(fmask))`, stored
into a `uint8_t`, hence the final `% 256`.  Note the source does not mask
`fv * fieldlsb(fmask)` by `fmask`. -/
def fieldset (m v f : Nat) : Nat :=
  ((v &&& (255 ^^^ m)) ||| (f * fieldlsb m)) % 256

/-- `AlsGain_t::gainToBits`. -/
def gainToBits (g : Nat) : Nat :=
  if g = 1 then 0
  else if g = 2 then 1
  else if g = 4 then 2
  else if g = 8 then 3
  else if g = 48 then 6
  else if g = 96 then 7
  else 8

/-- `AlsGain_t::isGainValid`; the argument is converted to `Gain_t`
(`uint8_t`) when passed to `gainToBits`, hence `% 256`. -/
def isGainValid (g : Nat) : Bool :=
  gainToBits (g % 256) < 8

/-- `AlsGain_t::bitsToGain`; undefined gain codes map to gain 1. -/
def bitsToGain (b : Nat) : Nat :=
  if b = 0 then 1
  else if b = 1 then 2
  else if b = 2 then 4
  else if b = 3 then 8
  else if b = 6 then 48
  else if b = 7 then 96
  else 1

/-- `AlsMeasRate_t::rateToBits` (argument type `Rate_t = uint16_t`). -/
def rateToBits (r : Nat) : Nat :=
  if r ≤ 50 then 0
  else if r ≤ 100 then 1
  else if r ≤ 200 then 2
  else if r ≤ 500 then 3
  else if r ≤ 1000 then 4
  else 5

/-- `AlsMeasRate_t::bitsToRate`. -/
def bitsToRate (b : Nat) : Nat :=
  if b = 0 then 50
  else if b = 1 then 100
  else if b = 2 then 200
  else if b = 3 then 500
  else if b = 4 then 1000
  else if 5 ≤ b ∧ b ≤ 7 then 2000
  else 500

/-- `AlsMeasRate_t::isRateValid`; the `uintmax_t` argument is truncated to
`Rate_t` (`uint16_t`) at the call to `rateToBits`, then compared untruncated. -/
def isRateValid (r : Nat) : Bool :=
  bitsToRate (rateToBits (r % 65536)) == r

/-- `AlsMeasRate_t::integrationToBits` (argument type `Integration_t = uint16_t`). -/
def integrationToBits (t : Nat) : Nat :=
  if t ≤ 50 then 1
  else if t ≤ 100 then 0
  else if t ≤ 150 then 4
  else if t ≤ 200 then 2
  else if t ≤ 250 then 5
  else if t ≤ 300 then 6
  else if t ≤ 350 then 7
  else if t ≤ 400 then 3
  else 0

/-- `AlsMeasRate_t::bitsToIntegration`. -/
def bitsToIntegration (b : Nat) : Nat :=
  if b = 0 then 100
  else if b = 1 then 50
  else if b = 2 then 200
  else if b = 3 then 400
  else if b = 4 then 150
  else if b = 5 then 250
  else if b = 6 then 300
  else if b = 7 then 350
  else 100

/-- `AlsMeasRate_t::isIntegrationValid`; the `uintmax_t` argument is
truncated to `Integration_t` (`uint16_t`) at the call to
`integrationToBits`. -/
def isIntegrationValid (t : Nat) : Bool :=
  bitsToIntegration (integrationToBits (t % 65536)) == t

/-- `ALS_CONTR_BITS::MODE` = `1 << 0`. -/
def MODE_BIT : Nat := 1

/-- `ALS_CONTR_BITS::RESET` = `1 << 1`. -/
def RESET_BIT : Nat := 2

/-- `ALS_CONTR_BITS::GAIN` = `7 << 2`. -/
def GAIN_CONTR_MASK : Nat := 28

/-- `ALS_MEAS_RATE_BITS::RATE` = `3 << 0` (as declared in the source). -/
def RATE_MASK : Nat := 3

/-- `ALS_MEAS_RATE_BITS::TIME` = `3 << 3` (as declared in the source). -/
def TIME_MASK : Nat := 24

/-- `ALS_STATUS_BITS::NEW` = `1 << 2`. -/
def STATUS_NEW_BIT : Nat := 4

/-- `ALS_STATUS_BITS::GAIN` = `7 << 4`. -/
def STATUS_GAIN_MASK : Nat := 112

/-- `ALS_STATUS_BITS::INVALID` = `1 << 7`. -/
def STATUS_INVALID_BIT : Nat := 128

namespace AlsContr

/-- `AlsContr_t::setActive`: set the MODE bit of a control-register image. -/
def setActive (v : Nat) (fActive : Bool) : Nat :=
  fieldset MODE_BIT v (if fActive then 1 else 0)

/-- `AlsContr_t::setReset`. -/
def setReset (v : Nat) (fReset : Bool) : Nat :=
  fieldset RESET_BIT v (if fReset then 1 else 0)

/-- `AlsContr_t::setGain`: the argument is a `uint8_t`; the inserted code is
`gainToBits(g) & 7`. -/
def setGain (v g : Nat) : Nat :=
  fieldset GAIN_CONTR_MASK v (gainToBits (g % 256) &&& 7)

/-- `AlsContr_t::getGain`. -/
def getGain (v : Nat) : Nat :=
  bitsToGain (fieldget GAIN_CONTR_MASK v)

end AlsContr

namespace AlsMeasRate

/-- `AlsMeasRate_t::setRate`: the argument is a `Rate_t` (`uint16_t`). -/
def setRate (v r : Nat) : Nat :=
  fieldset RATE_MASK v (rateToBits (r % 65536))

/-- `AlsMeasRate_t::getRate`. -/
def getRate (v : Nat) : Nat :=
  bitsToRate (fieldget RATE_MASK v)

/-- `AlsMeasRate_t::setIntegration`. -/
def setIntegration (v t : Nat) : Nat :=
  fieldset TIME_MASK v (integrationToBits (t % 65536))

/-- `AlsMeasRate_t::getIntegration`. -/
def getIntegration (v : Nat) : Nat :=
  bitsToIntegration (fieldget TIME_MASK v)

end AlsMeasRate

namespace AlsStatus

/-- `AlsStatus_t::getNew`: `m_value & NEW` as a boolean. -/
def getNew (v : Nat) : Bool :=
  v &&& STATUS_NEW_BIT ≠ 0

/-- `AlsStatus_t::getValid`: the INVALID bit has inverted polarity. -/
def getValid (v : Nat) : Bool :=
  v &&& STATUS_INVALID_BIT = 0

/-- `AlsStatus_t::setNew`. -/
def setNew (v : Nat) (fNew : Bool) : Nat :=
  fieldset STATUS_NEW_BIT v (if fNew then 1 else 0)

/-- `AlsStatus_t::setValid`: stores `!fValid` into the INVALID bit. -/
def setValid (v : Nat) (fValid : Bool) : Nat :=
  fieldset STATUS_INVALID_BIT v (if fValid then 0 else 1)

/-- `AlsStatus_t::setGain`. -/
def setGain (v g : Nat) : Nat :=
  fieldset STATUS_GAIN_MASK v (gainToBits (g % 256) &&& 7)

/-- `AlsStatus_t::getGain`. -/
def getGain (v : Nat) : Nat :=
  bitsToGain (fieldget STATUS_GAIN_MASK v)

end AlsStatus

/-- `DataRegs_t` (mcci_ltr_329als_regs.h): the four raw data bytes
`m_data[0..3]` in I2C order, together with the status and meas-rate
register images recorded at capture time. -/
structure DataRegs where
  data0 : Nat
  data1 : Nat
  data2 : Nat
  data3 : Nat
  status : Nat
  measrate : Nat
deriving DecidableEq

namespace DataRegs

/-- `DataRegs_t::getChan0`: `(m_data[3] << 8) | m_data[2]`. -/
def getChan0 (d : DataRegs) : Nat :=
  (d.data3 <<< 8) ||| d.data2

/-- `DataRegs_t::getChan1`: `(m_data[1] << 8) | m_data[0]`. -/
def getChan1 (d : DataRegs) : Nat :=
  (d.data1 <<< 8) ||| d.data0

/-- `DataRegs_t::init`: zero the four data bytes and store a status image
with the valid flag and the new flag both false
(`AlsStatus_t(0).setValid(false).setNew(false)`). -/
def init (d : DataRegs) : DataRegs :=
  { d with
    data0 := 0, data1 := 0, data2 := 0, data3 := 0,
    status := AlsStatus.setNew (AlsStatus.setValid 0 false) false }

/-- `DataRegs_t::setStatus`. -/
def setStatus (d : DataRegs) (s : Nat) : DataRegs :=
  { d with status := s }

/-- `DataRegs_t::setMeasRate`. -/
def setMeasRate (d : DataRegs) (m : Nat) : DataRegs :=
  { d with measrate := m }

/-- `DataRegs_t::getIntegrationTime`: integration time decoded from the
recorded meas-rate image. -/
def getIntegrationTime (d : DataRegs) : Nat :=
  AlsMeasRate.getIntegration d.measrate

/-- `DataRegs_t::luxComputation` (datasheet appendix A).  The source
computes in IEEE single precision; here the arithmetic is exact rational
arithmetic with the same constants and the same three ratio thresholds. -/
def luxComputation (ch0 ch1 gain iTime : Nat) : ℚ :=
  let ch01sum : ℚ := (ch0 : ℚ) + (ch1 : ℚ)
  if ch01sum = 0 then 0
  else
    let ratio : ℚ := (ch1 : ℚ) / ch01sum
    let result : ℚ :=
      if ratio < 45/100 then 17743/10000 * (ch0 : ℚ) + 11059/10000 * (ch1 : ℚ)
      else if ratio < 64/100 then 42785/10000 * (ch0 : ℚ) - 19548/10000 * (ch1 : ℚ)
      else if ratio < 85/100 then 5926/10000 * (ch0 : ℚ) + 1185/10000 * (ch1 : ℚ)
      else 0
    (result * 100) / ((gain : ℚ) * (iTime : ℚ))

/-- `DataRegs_t::computeLux`: reject the stored capture unless the recorded
status shows valid and new; otherwise convert.  First component is the
`fError` out-parameter, second the lux value. -/
def computeLux (d : DataRegs) : Bool × ℚ :=
  if !(AlsStatus.getValid d.status) then (true, 0)
  else if !(AlsStatus.getNew d.status) then (true, 0)
  else
    (false,
      luxComputation (getChan0 d) (getChan1 d)
        (AlsStatus.getGain d.status) (AlsMeasRate.getIntegration d.measrate))

end DataRegs

/-- `Ltr_329als::State` (mcci_ltr_329als.h), in declaration order. -/
inductive State where
  | Uninitialized
  | End
  | PowerOff
  | PowerOn
  | Initial
  | Idle
  | Single
  | Continuous
  | Ready
deriving DecidableEq

/-- Numeric value of a `State` in the `uint8_t` enumeration. -/
def stateCode : State → Nat
  | State.Uninitialized => 0
  | State.End => 1
  | State.PowerOff => 2
  | State.PowerOn => 3
  | State.Initial => 4
  | State.Idle => 5
  | State.Single => 6
  | State.Continuous => 7
  | State.Ready => 8

/-- `Ltr_329als::isRunning`: `m_state > State::End`. -/
def isRunning (s : State) : Bool :=
  1 < stateCode s

/-- `Ltr_329als::Error` (mcci_ltr_329als.h). -/
inductive Error where
  | Success
  | InvalidParameter
  | Busy
  | NotMeasuring
  | TimedOut
  | InvalidData
  | PartIdMismatch
  | I2cReadRequest
  | I2cReadShort
  | I2cReadLong
  | I2cWriteFailed
  | I2cWriteBufferFailed
  | NoWire
  | InternalInvalidParameter
  | Uninitialized
deriving DecidableEq

/-- Register addresses used by the modelled operations
(`LTR_329ALS_PARAMS::Reg_t`). -/
def ALS_CONTR_ADDR : Nat := 128

/-- `Reg_t::ALS_MEAS_RATE` = 0x85. -/
def ALS_MEAS_RATE_ADDR : Nat := 133

/-- `Reg_t::ALS_DATA_CH1_0` = 0x88 (start of the 4-byte burst read). -/
def ALS_DATA_ADDR : Nat := 136

/-- The instance fields of `Ltr_329als` that the modelled operations touch.
Register images are `uint8_t` values, timestamps `uint32_t` millisecond
counts. -/
structure Driver where
  state : State
  lastError : Error
  startTime : Nat
  pollTime : Nat
  userGain : Nat
  userRate : Nat
  userIntegration : Nat
  control : Nat
  measrate : Nat
  status : Nat
  rawChannels : DataRegs
deriving DecidableEq

/-- One call's interactions with the external collaborators: the value the
millisecond clock returns, whether each attempted register write succeeds,
the byte a status-register read returns (`none` = the I2C transaction
fails), the four bytes a data burst read returns, and the error codes the
transport layer reports on failure (`I2cRead…`/`I2cWrite…`, chosen by the
wire interaction). -/
structure BusEnv where
  now : Nat
  writeOk : Nat → Nat → Bool
  statusByte : Option Nat
  dataBytes : Option (Nat × Nat × Nat × Nat)
  readErr : Error
  writeErr : Error

/-- `Ltr_329als::setLastError`: record the error, return `e == Success`. -/
def setLastError (d : Driver) (e : Error) : Driver × Bool :=
  ({ d with lastError := e }, e == Error.Success)

/-- `Ltr_329als::checkRunning`: if not running, set the last error to
`Uninitialized` and report failure. -/
def checkRunning (d : Driver) : Driver × Bool :=
  if isRunning d.state then (d, true) else setLastError d Error.Uninitialized

/-- `Ltr_329als::writeRegister` at the granularity the state machine sees:
the transaction either succeeds or fails with a transport error code. -/
def writeRegister (env : BusEnv) (d : Driver) (r v : Nat) : Driver × Bool :=
  if env.writeOk r v then (d, true)
  else ({ d with lastError := env.writeErr }, false)

/-- `uint32_t` subtraction `now - start`, wraparound-safe. -/
def sub32 (now start : Nat) : Nat :=
  ((now % 4294967296) + 4294967296 - (start % 4294967296)) % 4294967296

/-- `Ltr_329als::setStandby` (mcci_ltr_329als.cpp): clear the active bit in
`m_control`, write `ALS_CONTR`, and set the state to `Idle` on success or
`Uninitialized` on write failure.  Returns the write outcome and the write
trace. -/
def setStandby (env : BusEnv) (d : Driver) : Driver × Bool × List (Nat × Nat) :=
  let ctrl := AlsContr.setActive d.control false
  let d1 := { d with control := ctrl }
  let (d2, ok) := writeRegister env d1 ALS_CONTR_ADDR ctrl
  ({ d2 with state := if ok then State.Idle else State.Uninitialized }, ok,
    [(ALS_CONTR_ADDR, ctrl)])

/-- Result of `Ltr_329als::configure`: updated instance, return value, and
the list of register writes performed. -/
structure ConfigureResult where
  drv : Driver
  ret : Bool
  writes : List (Nat × Nat)
deriving DecidableEq

/-- `Ltr_329als::configure` (mcci_ltr_329als.cpp): validate the gain, rate
and integration time, reject `r < iTime`, reject while a measurement is in
flight, otherwise update the control and meas-rate register images (no bus
traffic on any path).  `setLastError` returns `false` for the non-`Success`
errors recorded here. -/
def configure (d : Driver) (g r iTime : Nat) : ConfigureResult :=
  if !(isGainValid g && isRateValid r && isIntegrationValid iTime) then
    ⟨{ d with lastError := Error.InvalidParameter }, false, []⟩
  else if r < iTime then
    ⟨{ d with lastError := Error.InvalidParameter }, false, []⟩
  else if d.state = State.Single ∨ d.state = State.Continuous then
    ⟨{ d with lastError := Error.Busy }, false, []⟩
  else
    ⟨{ d with
        control := AlsContr.setGain d.control g,
        measrate := AlsMeasRate.setIntegration
          (AlsMeasRate.setRate 0 d.userRate) d.userIntegration },
      true, []⟩

/-- Result of `Ltr_329als::startMeasurement`.  The return value is
`Option Bool` because the source function falls off its end (no `return`
statement) when the second register write fails; that path is `none`. -/
structure StartResult where
  drv : Driver
  ret : Option Bool
  writes : List (Nat × Nat)
deriving DecidableEq

/-- `Ltr_329als::startMeasurement` (mcci_ltr_329als.cpp): guard on the
state (`Single` reports success at once, any other non-`Idle` running
state is `Busy`), force the repeat rate to the 2000 ms code for
single-shot, set the control image active, write the two registers, and on
success record the timestamps, reinitialise the capture buffer, and enter
`Single` or `Continuous`. -/
def startMeasurement (env : BusEnv) (d : Driver) (fSingle : Bool) : StartResult :=
  if isRunning d.state = false then
    ⟨{ d with lastError := Error.Uninitialized }, some false, []⟩
  else if d.state = State.Single then
    ⟨d, some true, []⟩
  else if d.state ≠ State.Idle then
    ⟨{ d with lastError := Error.Busy }, some false, []⟩
  else
    let measrate := if fSingle then AlsMeasRate.setRate d.measrate 2000 else d.measrate
    let control := AlsContr.setReset (AlsContr.setActive d.control true) false
    let d1 := { d with control := control }
    let (d2, w1) := writeRegister env d1 ALS_MEAS_RATE_ADDR measrate
    if !w1 then
      ⟨d2, some false, [(ALS_MEAS_RATE_ADDR, measrate)]⟩
    else
      let (d3, w2) := writeRegister env d2 ALS_CONTR_ADDR control
      if w2 then
        ⟨{ d3 with
            startTime := env.now % 4294967296,
            pollTime := env.now % 4294967296,
            rawChannels := DataRegs.setMeasRate (DataRegs.init d3.rawChannels) measrate,
            state := if fSingle then State.Single else State.Continuous },
          some true,
          [(ALS_MEAS_RATE_ADDR, measrate), (ALS_CONTR_ADDR, control)]⟩
      else
        ⟨d3, none, [(ALS_MEAS_RATE_ADDR, measrate), (ALS_CONTR_ADDR, control)]⟩

/-- Result of `Ltr_329als::queryReady`: updated instance, return value, the
value the call stores through the `fError` out-parameter (`none` when the
source path leaves it unassigned), and the write trace. -/
structure QueryResult where
  drv : Driver
  ret : Bool
  fError : Option Bool
  writes : List (Nat × Nat)
deriving DecidableEq

/-- `Ltr_329als::queryReady` (mcci_ltr_329als.cpp): the non-blocking poll.
Not running reports `Uninitialized`; `Ready` reports success; from
`Single`/`Continuous` the call observes the clock once, reports `Busy`
(backdating `m_pollTime` by 10 ms) while the integration window has not
elapsed, rate-limits status reads to one per 10 ms, reads the status
register (failure forces `Uninitialized`), and when the data is not
new-and-valid declares `TimedOut` (state `Uninitialized`) past twice the
integration time, else `Busy`; when the data is ready it burst-reads the
four data bytes, records the status, and either stands the device down
(`Single`) or rearms the timestamps (`Continuous`).  Any other state
reports `NotMeasuring`. -/
def queryReady (env : BusEnv) (d : Driver) : QueryResult :=
  if isRunning d.state = false then
    ⟨{ d with lastError := Error.Uninitialized }, false, some true, []⟩
  else if d.state = State.Ready then
    ⟨d, true, some false, []⟩
  else if d.state = State.Single ∨ d.state = State.Continuous then
    let now := env.now % 4294967296
    if sub32 now d.startTime < DataRegs.getIntegrationTime d.rawChannels then
      ⟨{ d with pollTime := sub32 now 10, lastError := Error.Busy }, false, some false, []⟩
    else if sub32 now d.pollTime < 10 then
      ⟨{ d with lastError := Error.Busy }, false, some false, []⟩
    else
      match env.statusByte with
      | none =>
        ⟨{ d with lastError := env.readErr, state := State.Uninitialized }, false, none, []⟩
      | some st =>
        let d1 := { d with status := st % 256, pollTime := now }
        if !(AlsStatus.getNew d1.status && AlsStatus.getValid d1.status) then
          if 2 * DataRegs.getIntegrationTime d1.rawChannels < sub32 now d1.startTime then
            ⟨{ d1 with state := State.Uninitialized, lastError := Error.TimedOut },
              false, some true, []⟩
          else
            ⟨{ d1 with lastError := Error.Busy }, false, some false, []⟩
        else
          match env.dataBytes with
          | none =>
            ⟨{ d1 with lastError := env.readErr, state := State.Uninitialized },
              false, none, []⟩
          | some (b0, b1, b2, b3) =>
            let raw := DataRegs.setStatus
              { d1.rawChannels with
                data0 := b0 % 256, data1 := b1 % 256,
                data2 := b2 % 256, data3 := b3 % 256 }
              d1.status
            let d2 := { d1 with rawChannels := raw }
            if d2.state = State.Single then
              let (d3, ok, tr) := setStandby env d2
              ⟨d3, ok, none, tr⟩
            else
              ⟨{ d2 with startTime := now, pollTime := now }, true, none, []⟩
  else
    ⟨{ d with lastError := Error.NotMeasuring }, false, some true, []⟩

/-- `Ltr_329als::getLux` (mcci_ltr_329als.cpp): convert the stored capture;
on conversion error record `InvalidData`; return the lux value (zero in the
error case). -/
def getLux (d : Driver) : Driver × ℚ :=
  let r := DataRegs.computeLux d.rawChannels
  (if r.1 then { d with lastError := Error.InvalidData } else d, r.2)

/-- Iterate `queryReady` over a list of per-call environments, keeping the
instance state. -/
def queryReadyRun (envs : List BusEnv) (d : Driver) : Driver :=
  envs.foldl (fun s e => (queryReady e s).drv) d

/-- The three-segment datasheet model exactly as the specification words it:
zero on a dark reading (`ch0+ch1 = 0`), otherwise one of three linear
combinations selected by the ratio thresholds 0.45 / 0.64 / 0.85 (zero at or
above the last), scaled by `100 / (gain × integrationMs)`.  Stated
separately from `DataRegs.luxComputation` to compare the code against the
specification. -/
def luxThreeSegmentSpec (ch0 ch1 gain iTime : Nat) : ℚ :=
  if ch0 + ch1 = 0 then 0
  else
    let ratio : ℚ := (ch1 : ℚ) / ((ch0 : ℚ) + (ch1 : ℚ))
    (if ratio < 45/100 then 17743/10000 * (ch0 : ℚ) + 11059/10000 * (ch1 : ℚ)
     else if ratio < 64/100 then 42785/10000 * (ch0 : ℚ) - 19548/10000 * (ch1 : ℚ)
     else if ratio < 85/100 then 5926/10000 * (ch0 : ℚ) + 1185/10000 * (ch1 : ℚ)
     else 0) * (100 / ((gain : ℚ) * (iTime : ℚ)))

/-- A concrete driver instance in state `Idle` with the reset-default
register images, used by concrete counterexamples and witnesses. -/
def sampleIdleDriver : Driver :=
  { state := State.Idle
    lastError := Error.Success
    startTime := 0
    pollTime := 0
    userGain := 1
    userRate := 1000
    userIntegration := 100
    control := 0
    measrate := 0
    status := 0
    rawChannels := ⟨0, 0, 0, 0, 0, 0⟩ }

/-- A concrete bus environment in which every transaction succeeds, the
status register reads 0 (no new data) and the data bytes read 0. -/
def busAllOk : BusEnv :=
  { now := 0
    writeOk := fun _ _ => true
    statusByte := some 0
    dataBytes := some (0, 0, 0, 0)
    readErr := Error.I2cReadRequest
    writeErr := Error.I2cWriteFailed }

/-- The sample driver while a single-shot measurement is in flight. -/
def sampleSingleDriver : Driver :=
  { sampleIdleDriver with state := State.Single }

/-- The sample driver after a hard failure (state `Uninitialized`). -/
def sampleUninitDriver : Driver :=
  { sampleIdleDriver with state := State.Uninitialized }

/-- A bus environment observed 201 ms after a measurement started at 0 with
a 100 ms integration window: past twice the integration time. -/
def busTimeoutEnv : BusEnv :=
  { busAllOk with now := 201 }

/-- The sample in-flight driver with a start timestamp 10 ms before the
32-bit millisecond clock wraps. -/
def sampleWrapDriver : Driver :=
  { sampleIdleDriver with state := State.Single, startTime := 4294967286 }

/-- A bus environment whose clock has wrapped past zero: 30 ms of real time
after `sampleWrapDriver.startTime`. -/
def busWrapEnv : BusEnv :=
  { busAllOk with now := 20 }

set_option maxRecDepth 2000

/-- C5: every rate on a decode-table boundary (50, 100, 200, 500, 1000,
2000 ms) and every integration time on a boundary (50..400 ms) round-trips
through encode/decode to itself and is accepted by the validity predicate;
every value strictly between boundaries fails the round-trip and is
rejected. -/
theorem rate_integration_roundtrip_boundary :
    (∀ r ∈ ([50, 100, 200, 500, 1000, 2000] : List Nat),
      bitsToRate (rateToBits r) = r ∧ isRateValid r = true) ∧
    (∀ r : Nat, 50 < r → r < 2000 → r ∉ ([100, 200, 500, 1000] : List Nat) →
      bitsToRate (rateToBits r) ≠ r ∧ isRateValid r = false) ∧
    (∀ t ∈ ([50, 100, 150, 200, 250, 300, 350, 400] : List Nat),
      bitsToIntegration (integrationToBits t) = t ∧ isIntegrationValid t = true) ∧
    (∀ t : Nat, 50 < t → t < 400 → t ∉ ([100, 150, 200, 250, 300, 350] : List Nat) →
      bitsToIntegration (integrationToBits t) ≠ t ∧ isIntegrationValid t = false) := by
  refine ⟨by decide, ?_, by decide, ?_⟩
  · intro r h50 h2000 hmem
    have hne : r ≠ 100 ∧ r ≠ 200 ∧ r ≠ 500 ∧ r ≠ 1000 := by
      refine ⟨?_, ?_, ?_, ?_⟩ <;> (intro h; exact hmem (by rw [h]; decide))
    have hmod : r % 65536 = r := Nat.mod_eq_of_lt (by omega)
    have key : bitsToRate (rateToBits r) ≠ r := by
      unfold rateToBits
      split_ifs <;> simp [bitsToRate] <;> omega
    refine ⟨key, ?_⟩
    simp only [isRateValid, hmod]
    simpa using key
  · intro t h50 h400 hmem
    have hne : t ≠ 100 ∧ t ≠ 150 ∧ t ≠ 200 ∧ t ≠ 250 ∧ t ≠ 300 ∧ t ≠ 350 := by
      refine ⟨?_, ?_, ?_, ?_, ?_, ?_⟩ <;> (intro h; exact hmem (by rw [h]; decide))
    have hmod : t % 65536 = t := Nat.mod_eq_of_lt (by omega)
    have key : bitsToIntegration (integrationToBits t) ≠ t := by
      unfold integrationToBits
      split_ifs <;> simp [bitsToIntegration] <;> omega
    refine ⟨key, ?_⟩
    simp only [isIntegrationValid, hmod]
    simpa using key

/-- C5 witness: the theorem applied at the concrete boundary value 50 and
the concrete in-between value 51. -/
theorem rate_integration_roundtrip_boundary_witness :
    bitsToRate (rateToBits 50) = 50 ∧ bitsToRate (rateToBits 51) ≠ 51 ∧
    isIntegrationValid 150 = true ∧ isIntegrationValid 151 = false :=
  ⟨(rate_integration_roundtrip_boundary.1 50 (by decide)).1,
   (rate_integration_roundtrip_boundary.2.1 51 (by decide) (by decide) (by decide)).1,
   (rate_integration_roundtrip_boundary.2.2.1 150 (by decide)).2,
   (rate_integration_roundtrip_boundary.2.2.2 151 (by decide) (by decide) (by decide)).2⟩

/-- C6 counterexample: `fieldset` does not mask the inserted value, so a
field value too wide for the mask spills into bits outside the mask
(`fieldset 1 0 2` sets bit 1, outside mask `0b1`), and `setRate` with the
in-table rate 1000 ms (code `0b100`) changes bit 2, which lies outside the
declared two-bit RATE mask `3 << 0`. -/
theorem fieldset_changes_bits_outside_mask_cex :
    fieldset 1 0 2 &&& 2 ≠ 0 &&& 2 ∧
    AlsMeasRate.setRate 0 1000 &&& 4 ≠ 0 &&& 4 := by
  decide

theorem gainToBits_and7_fit (f : Nat) (hf : f < 8) :
    (f * fieldlsb GAIN_CONTR_MASK) &&& GAIN_CONTR_MASK = f * fieldlsb GAIN_CONTR_MASK := by
  revert f
  decide

theorem rateToBits_le (r : Nat) : rateToBits r ≤ 5 := by
  unfold rateToBits
  repeat' split
  all_goals omega

theorem integrationToBits_le (t : Nat) : integrationToBits t ≤ 7 := by
  unfold integrationToBits
  repeat' split
  all_goals omega

theorem fieldset_rate_footprint :
    ∀ v : Nat, v < 256 → ∀ f : Nat, f < 8 →
      fieldset RATE_MASK v f &&& 248 = v &&& 248 := by
  decide

theorem fieldset_time_footprint :
    ∀ v : Nat, v < 256 → ∀ f : Nat, f < 8 →
      fieldset TIME_MASK v f &&& 199 = v &&& 199 := by
  decide

/-- C6 amended: `fieldset m v f` agrees with `v` on every bit outside `m`
whenever the left-justified value `f * fieldlsb m` fits under the mask `m`
(as it does for every caller-validated gain code, so `setGain` changes only
its declared GAIN bits); `setRate` and `setIntegration` insert three-bit
codes through the declared two-bit masks `3 << 0` and `3 << 3`, so they
confine their changes only to the three-bit footprints `0b111` (bits 2:0)
and `0b111000` (bits 5:3) — one bit beyond each declared mask. -/
theorem fieldset_outside_mask_amended :
    (∀ m v f : Nat, m < 256 → v < 256 → (f * fieldlsb m) &&& m = f * fieldlsb m →
      fieldset m v f &&& (255 ^^^ m) = v &&& (255 ^^^ m)) ∧
    (∀ v g : Nat, v < 256 →
      AlsContr.setGain v g &&& (255 ^^^ GAIN_CONTR_MASK) = v &&& (255 ^^^ GAIN_CONTR_MASK)) ∧
    (∀ v r : Nat, v < 256 → AlsMeasRate.setRate v r &&& 248 = v &&& 248) ∧
    (∀ v t : Nat, v < 256 → AlsMeasRate.setIntegration v t &&& 199 = v &&& 199) := by
  have main : ∀ m v f : Nat, m < 256 → v < 256 →
      (f * fieldlsb m) &&& m = f * fieldlsb m →
      fieldset m v f &&& (255 ^^^ m) = v &&& (255 ^^^ m) := by
    intro m v f hm hv hfit
    have hL : f * fieldlsb m ≤ m := by
      conv_lhs => rw [← hfit]
      exact Nat.and_le_right
    have hc : v &&& (255 ^^^ m) < 256 := lt_of_le_of_lt Nat.and_le_left hv
    have h1 : fieldset m v f = (v &&& (255 ^^^ m)) ||| (f * fieldlsb m) := by
      unfold fieldset
      apply Nat.mod_eq_of_lt
      have h8 : (256 : Nat) = 2 ^ 8 := by norm_num
      rw [h8]
      exact Nat.or_lt_two_pow (by omega) (by omega)
    rw [h1]
    apply Nat.eq_of_testBit_eq
    intro i
    simp only [Nat.testBit_and, Nat.testBit_or]
    have hLbit : (f * fieldlsb m).testBit i
        = ((f * fieldlsb m).testBit i && m.testBit i) := by
      conv_lhs => rw [← hfit]
      rw [Nat.testBit_and]
    by_cases hi : i < 8
    · have h255 : (255 : Nat).testBit i = true := by
        have h8 : (255 : Nat) = 2 ^ 8 - 1 := by norm_num
        rw [h8, Nat.testBit_two_pow_sub_one]
        simpa using hi
      rw [Nat.testBit_xor, h255]
      cases hmi : m.testBit i
      · rw [hmi, Bool.and_false] at hLbit
        simp [hLbit]
      · simp
    · have hmi : m.testBit i = false := by
        apply Nat.testBit_lt_two_pow
        calc m < 256 := hm
          _ = 2 ^ 8 := by norm_num
          _ ≤ 2 ^ i := Nat.pow_le_pow_right (by norm_num) (by omega)
      have hLb : (f * fieldlsb m).testBit i = false := by
        rw [hLbit, hmi, Bool.and_false]
      simp [hLb]
  refine ⟨main, ?_, ?_, ?_⟩
  · intro v g hv
    apply main GAIN_CONTR_MASK v _ (by decide) hv
    exact gainToBits_and7_fit _ (lt_of_le_of_lt Nat.and_le_right (by norm_num))
  · intro v r hv
    exact fieldset_rate_footprint v hv _ (lt_of_le_of_lt (rateToBits_le _) (by norm_num))
  · intro v t hv
    exact fieldset_time_footprint v hv _
      (lt_of_le_of_lt (integrationToBits_le _) (by norm_num))

/-- C6 amended witness: the general preservation part applied at the
concrete mask 28, register 255 and fitting field value 7, and the setter
parts at concrete registers. -/
theorem fieldset_outside_mask_amended_witness :
    fieldset 28 255 7 &&& (255 ^^^ 28) = 255 &&& (255 ^^^ 28) ∧
    AlsContr.setGain 255 96 &&& (255 ^^^ GAIN_CONTR_MASK) = 255 &&& (255 ^^^ GAIN_CONTR_MASK) ∧
    AlsMeasRate.setRate 255 1000 &&& 248 = 255 &&& 248 :=
  ⟨fieldset_outside_mask_amended.1 28 255 7 (by decide) (by decide) (by decide),
   fieldset_outside_mask_amended.2.1 255 96 (by decide),
   fieldset_outside_mask_amended.2.2.1 255 1000 (by decide)⟩

/-- C7: the six supported gains 1, 2, 4, 8, 48, 96 survive the
encode/decode round trip; every other 8-bit value is rejected by
`isGainValid`; and every 8-bit gain code outside {0, 1, 2, 3, 6, 7}
decodes to the documented fallback gain 1. -/
theorem gain_code_roundtrip :
    (∀ g ∈ ([1, 2, 4, 8, 48, 96] : List Nat),
      bitsToGain (gainToBits g) = g ∧ isGainValid g = true) ∧
    (∀ g : Nat, g < 256 → g ∉ ([1, 2, 4, 8, 48, 96] : List Nat) →
      isGainValid g = false) ∧
    (∀ b : Nat, b < 256 → b ∉ ([0, 1, 2, 3, 6, 7] : List Nat) → bitsToGain b = 1) := by
  refine ⟨by decide, by decide, by decide⟩

/-- C7 witness: the theorem applied at the concrete gain 96, the concrete
invalid gain 5, and the concrete undefined gain code 4. -/
theorem gain_code_roundtrip_witness :
    bitsToGain (gainToBits 96) = 96 ∧ isGainValid 5 = false ∧ bitsToGain 4 = 1 :=
  ⟨(gain_code_roundtrip.1 96 (by decide)).1,
   gain_code_roundtrip.2.1 5 (by decide) (by decide),
   gain_code_roundtrip.2.2 4 (by decide) (by decide)⟩

/-- C8: over the exact-rational model of the source's float arithmetic,
`luxComputation` coincides with the datasheet's three-segment piecewise
model for all channel counts, gains and integration times (dark condition
included), and at the concrete point (100, 0, gain 1, 100 ms) it yields
exactly 177.43. -/
theorem luxComputation_three_segment :
    (∀ ch0 ch1 gain iTime : Nat,
      DataRegs.luxComputation ch0 ch1 gain iTime = luxThreeSegmentSpec ch0 ch1 gain iTime) ∧
    DataRegs.luxComputation 100 0 1 100 = 17743/100 ∧
    (∀ gain iTime : Nat, DataRegs.luxComputation 0 0 gain iTime = 0) := by
  have main : ∀ ch0 ch1 gain iTime : Nat,
      DataRegs.luxComputation ch0 ch1 gain iTime = luxThreeSegmentSpec ch0 ch1 gain iTime := by
    intro ch0 ch1 gain iTime
    by_cases h : ch0 + ch1 = 0
    · have hq : ((ch0 : ℚ) + (ch1 : ℚ)) = 0 := by
        have hcast : ((ch0 + ch1 : Nat) : ℚ) = 0 := by rw [h]; norm_num
        push_cast at hcast
        exact hcast
      simp [DataRegs.luxComputation, luxThreeSegmentSpec, h, hq]
    · have hq : ((ch0 : ℚ) + (ch1 : ℚ)) ≠ 0 := by
        intro hc
        apply h
        have hcast : ((ch0 + ch1 : Nat) : ℚ) = 0 := by push_cast; exact hc
        exact_mod_cast hcast
      simp only [DataRegs.luxComputation, luxThreeSegmentSpec, if_neg h, if_neg hq]
      rw [mul_div_assoc]
  refine ⟨main, ?_, ?_⟩
  · rw [main]
    norm_num [luxThreeSegmentSpec]
  · intro gain iTime
    simp [DataRegs.luxComputation]

/-- C8 witness: the refinement applied at the concrete point
(100, 0, gain 1, 100 ms). -/
theorem luxComputation_three_segment_witness :
    DataRegs.luxComputation 100 0 1 100 = luxThreeSegmentSpec 100 0 1 100 :=
  luxComputation_three_segment.1 100 0 1 100

theorem queryReady_not_running_eq (env : BusEnv) (d : Driver)
    (h : isRunning d.state = false) :
    queryReady env d = ⟨{ d with lastError := Error.Uninitialized }, false, some true, []⟩ := by
  simp [queryReady, h]

theorem queryReadyRun_state_uninit (envs : List BusEnv) (d : Driver)
    (h : d.state = State.Uninitialized) :
    (queryReadyRun envs d).state = State.Uninitialized := by
  induction envs generalizing d with
  | nil => simpa [queryReadyRun] using h
  | cons e es ih =>
    have hnr : isRunning d.state = false := by rw [h]; rfl
    show (queryReadyRun es (queryReady e d).drv).state = State.Uninitialized
    rw [queryReady_not_running_eq e d hnr]
    exact ih _ (by simpa using h)

/-- C1: when `queryReady` finds the captured status not new-and-valid and
the wraparound-safe elapsed time exceeds twice the stored integration time,
it returns `false` with `fError = true`, records `TimedOut`, and drops the
state to `Uninitialized`; after that, every later `queryReady` call — any
number of calls with any bus environments — returns `false` with
`fError = true` and last error `Uninitialized` (never `Busy`, never ready),
and the state stays `Uninitialized`. -/
theorem queryReady_timeout_uninitializes
    (d : Driver) (env : BusEnv) (st : Nat)
    (hstate : d.state = State.Single ∨ d.state = State.Continuous)
    (hstatus : env.statusByte = some st)
    (hnotready : (AlsStatus.getNew (st % 256) && AlsStatus.getValid (st % 256)) = false)
    (hpoll : 10 ≤ sub32 (env.now % 4294967296) d.pollTime)
    (htimeout : 2 * DataRegs.getIntegrationTime d.rawChannels
      < sub32 (env.now % 4294967296) d.startTime) :
    (queryReady env d).ret = false ∧
    (queryReady env d).fError = some true ∧
    (queryReady env d).drv.lastError = Error.TimedOut ∧
    (queryReady env d).drv.state = State.Uninitialized ∧
    (∀ envs : List BusEnv, ∀ env2 : BusEnv,
      (queryReady env2 (queryReadyRun envs (queryReady env d).drv)).ret = false ∧
      (queryReady env2 (queryReadyRun envs (queryReady env d).drv)).fError = some true ∧
      (queryReady env2 (queryReadyRun envs (queryReady env d).drv)).drv.lastError
        = Error.Uninitialized ∧
      (queryReady env2 (queryReadyRun envs (queryReady env d).drv)).drv.state
        = State.Uninitialized) := by
  have hnb : ¬(sub32 (env.now % 4294967296) d.startTime
      < DataRegs.getIntegrationTime d.rawChannels) := by omega
  have hnp : ¬(sub32 (env.now % 4294967296) d.pollTime < 10) := by omega
  have hq : queryReady env d =
      QueryResult.mk
        { d with
          status := st % 256
          pollTime := env.now % 4294967296
          state := State.Uninitialized
          lastError := Error.TimedOut }
        false (some true) [] := by
    rcases hstate with h | h <;>
      simp [queryReady, h, isRunning, stateCode, hnb, hnp, hstatus, hnotready, htimeout]
  rw [hq]
  refine ⟨rfl, rfl, rfl, rfl, ?_⟩
  intro envs env2
  have hst : (queryReadyRun envs
      ({ d with
          status := st % 256
          pollTime := env.now % 4294967296
          state := State.Uninitialized
          lastError := Error.TimedOut } : Driver)).state
      = State.Uninitialized := queryReadyRun_state_uninit envs _ rfl
  rw [queryReady_not_running_eq env2 _ (by rw [hst]; rfl)]
  simp [hst]

/-- C1 witness: the timeout theorem applied to the concrete in-flight
driver polled at 201 ms with a 100 ms integration window and a
no-new-data status byte, followed by one more concrete call. -/
theorem queryReady_timeout_uninitializes_witness :
    (queryReady busTimeoutEnv sampleSingleDriver).ret = false ∧
    (queryReady busTimeoutEnv sampleSingleDriver).fError = some true ∧
    (queryReady busTimeoutEnv sampleSingleDriver).drv.lastError = Error.TimedOut ∧
    (queryReady busTimeoutEnv sampleSingleDriver).drv.state = State.Uninitialized ∧
    (queryReady busAllOk
        (queryReadyRun [] (queryReady busTimeoutEnv sampleSingleDriver).drv)).drv.lastError
      = Error.Uninitialized := by
  have h := queryReady_timeout_uninitializes sampleSingleDriver busTimeoutEnv 0
    (Or.inl rfl) rfl (by decide) (by decide) (by decide)
  exact ⟨h.1, h.2.1, h.2.2.1, h.2.2.2.1, (h.2.2.2.2 [] busAllOk).2.2.1⟩

/-- C2 counterexample: from `Idle`, a successful single-shot
`startMeasurement` followed by a second `startMeasurement` before any
completion returns `true` ("already measuring") and does not set `Busy`,
contradicting the claim that the second call fails with `Busy`. -/
theorem startMeasurement_second_single_cex :
    sampleIdleDriver.state = State.Idle ∧
    (startMeasurement busAllOk sampleIdleDriver true).ret = some true ∧
    (startMeasurement busAllOk (startMeasurement busAllOk sampleIdleDriver true).drv true).ret
      = some true ∧
    (startMeasurement busAllOk
        (startMeasurement busAllOk sampleIdleDriver true).drv true).drv.lastError
      ≠ Error.Busy := by
  decide

/-- C2 amended: after a successful continuous `startMeasurement` from
`Idle` (state `Continuous`), a second `startMeasurement` before completion
fails with last error `Busy`; after a successful single-shot start (state
`Single`), the second call instead reports success immediately ("already
measuring") and leaves the instance unchanged. -/
theorem startMeasurement_double_call (d : Driver) (env env2 : BusEnv) (fS2 : Bool)
    (hidle : d.state = State.Idle) :
    ((startMeasurement env d false).ret = some true →
      (startMeasurement env2 (startMeasurement env d false).drv fS2).ret = some false ∧
      (startMeasurement env2 (startMeasurement env d false).drv fS2).drv.lastError
        = Error.Busy) ∧
    ((startMeasurement env d true).ret = some true →
      (startMeasurement env2 (startMeasurement env d true).drv fS2).ret = some true ∧
      (startMeasurement env2 (startMeasurement env d true).drv fS2).drv
        = (startMeasurement env d true).drv) := by
  constructor
  · intro hok
    have hd1 : (startMeasurement env d false).drv.state = State.Continuous := by
      by_cases w1 : env.writeOk ALS_MEAS_RATE_ADDR d.measrate
      · by_cases w2 : env.writeOk ALS_CONTR_ADDR
            (AlsContr.setReset (AlsContr.setActive d.control true) false)
        · simp [startMeasurement, writeRegister, hidle, isRunning, stateCode, w1, w2]
        · exfalso
          simp [startMeasurement, writeRegister, hidle, isRunning, stateCode, w1, w2] at hok
      · exfalso
        simp [startMeasurement, writeRegister, hidle, isRunning, stateCode, w1] at hok
    obtain ⟨X, hX⟩ : ∃ X, (startMeasurement env d false).drv = X := ⟨_, rfl⟩
    rw [hX] at hd1 ⊢
    constructor <;> simp [startMeasurement, hd1, isRunning, stateCode]
  · intro hok
    have hd1 : (startMeasurement env d true).drv.state = State.Single := by
      by_cases w1 : env.writeOk ALS_MEAS_RATE_ADDR (AlsMeasRate.setRate d.measrate 2000)
      · by_cases w2 : env.writeOk ALS_CONTR_ADDR
            (AlsContr.setReset (AlsContr.setActive d.control true) false)
        · simp [startMeasurement, writeRegister, hidle, isRunning, stateCode, w1, w2]
        · exfalso
          simp [startMeasurement, writeRegister, hidle, isRunning, stateCode, w1, w2] at hok
      · exfalso
        simp [startMeasurement, writeRegister, hidle, isRunning, stateCode, w1] at hok
    obtain ⟨X, hX⟩ : ∃ X, (startMeasurement env d true).drv = X := ⟨_, rfl⟩
    rw [hX] at hd1 ⊢
    constructor <;> simp [startMeasurement, hd1, isRunning, stateCode]

/-- C2 amended witness: the continuous-mode half applied to the concrete
idle driver with an all-success bus. -/
theorem startMeasurement_double_call_witness :
    (startMeasurement busAllOk
        (startMeasurement busAllOk sampleIdleDriver false).drv true).ret = some false ∧
    (startMeasurement busAllOk
        (startMeasurement busAllOk sampleIdleDriver false).drv true).drv.lastError
      = Error.Busy :=
  (startMeasurement_double_call sampleIdleDriver busAllOk busAllOk true rfl).1 (by decide)

/-- C3: when the gain, rate or integration time is not a table value, or
the rate is smaller than the integration time, `configure` fails with
`InvalidParameter`, performs no register write, and leaves the state and
the stored control / meas-rate register images unchanged. -/
theorem configure_invalid_rejected (d : Driver) (g r iTime : Nat)
    (h : isGainValid g = false ∨ isRateValid r = false ∨
      isIntegrationValid iTime = false ∨ r < iTime) :
    (configure d g r iTime).ret = false ∧
    (configure d g r iTime).drv.lastError = Error.InvalidParameter ∧
    (configure d g r iTime).drv.state = d.state ∧
    (configure d g r iTime).drv.control = d.control ∧
    (configure d g r iTime).drv.measrate = d.measrate ∧
    (configure d g r iTime).writes = [] := by
  by_cases hv : (isGainValid g && isRateValid r && isIntegrationValid iTime) = true
  · have hlt : r < iTime := by
      simp only [Bool.and_eq_true] at hv
      rcases h with h | h | h | h
      · rw [hv.1.1] at h; cases h
      · rw [hv.1.2] at h; cases h
      · rw [hv.2] at h; cases h
      · exact h
    simp [configure, hv, hlt]
  · have hv' : (isGainValid g && isRateValid r && isIntegrationValid iTime) = false := by
      revert hv; cases (isGainValid g && isRateValid r && isIntegrationValid iTime) <;> simp
    simp [configure, hv']

/-- C3 witness: the rejection theorem applied at the concrete invalid gain
3, and at the concrete valid-but-inverted pair rate 100 < integration 200. -/
theorem configure_invalid_rejected_witness :
    (configure sampleIdleDriver 3 100 100).ret = false ∧
    (configure sampleIdleDriver 3 100 100).drv.lastError = Error.InvalidParameter ∧
    (configure sampleIdleDriver 3 100 100).writes = [] ∧
    (configure sampleIdleDriver 1 100 200).ret = false ∧
    (configure sampleIdleDriver 1 100 200).drv.lastError = Error.InvalidParameter := by
  have h1 := configure_invalid_rejected sampleIdleDriver 3 100 100 (Or.inl (by decide))
  have h2 := configure_invalid_rejected sampleIdleDriver 1 100 200
    (Or.inr (Or.inr (Or.inr (by decide))))
  exact ⟨h1.1, h1.2.1, h1.2.2.2.2.2, h2.1, h2.2.1⟩

/-- C4: the elapsed time `queryReady` computes by wraparound-safe unsigned
32-bit subtraction is exactly the real elapsed time `e` for every start
timestamp, even when the clock wraps between `start` and `now`, so the
busy (`< integration time`) and timeout (`> 2 × integration time`)
decisions agree with the true elapsed time; in particular `queryReady`
reports `Busy` with no bus traffic whenever `e` is inside the integration
window, regardless of wraparound. -/
theorem elapsed_wraparound_correct (start e : Nat)
    (hs : start < 4294967296) (he : e < 4294967296) :
    sub32 ((start + e) % 4294967296) start = e ∧
    (∀ iT : Nat,
      ((sub32 ((start + e) % 4294967296) start < iT) ↔ e < iT) ∧
      ((2 * iT < sub32 ((start + e) % 4294967296) start) ↔ 2 * iT < e)) ∧
    (∀ (d : Driver) (env : BusEnv),
      (d.state = State.Single ∨ d.state = State.Continuous) →
      d.startTime = start →
      env.now % 4294967296 = (start + e) % 4294967296 →
      e < DataRegs.getIntegrationTime d.rawChannels →
      (queryReady env d).ret = false ∧
      (queryReady env d).drv.lastError = Error.Busy ∧
      (queryReady env d).drv.state = d.state ∧
      (queryReady env d).writes = []) := by
  have h1 : sub32 ((start + e) % 4294967296) start = e := by
    unfold sub32
    omega
  refine ⟨h1, ?_, ?_⟩
  · intro iT
    rw [h1]
    exact ⟨Iff.rfl, Iff.rfl⟩
  · intro d env hstate hstart hnow hlt
    have hb : sub32 (env.now % 4294967296) d.startTime
        < DataRegs.getIntegrationTime d.rawChannels := by
      have heq : sub32 (env.now % 4294967296) d.startTime = e := by
        rw [hstart, hnow]
        unfold sub32 at h1 ⊢
        simpa using h1
      rw [heq]
      exact hlt
    have hq : queryReady env d =
        QueryResult.mk
          { d with
            pollTime := sub32 (env.now % 4294967296) 10
            lastError := Error.Busy }
          false (some false) [] := by
      rcases hstate with h | h <;>
        simp [queryReady, h, isRunning, stateCode, hb]
    rw [hq]
    rcases hstate with h | h <;> simp [h]

/-- C4 witness: the theorem applied with a start timestamp 10 ms before
the 32-bit wrap and 30 ms of real elapsed time, so `now = 20 < start`. -/
theorem elapsed_wraparound_correct_witness :
    sub32 ((4294967286 + 30) % 4294967296) 4294967286 = 30 ∧
    (queryReady busWrapEnv sampleWrapDriver).ret = false ∧
    (queryReady busWrapEnv sampleWrapDriver).drv.lastError = Error.Busy := by
  have h := elapsed_wraparound_correct 4294967286 30 (by norm_num) (by norm_num)
  have h3 := h.2.2 sampleWrapDriver busWrapEnv (Or.inl rfl) rfl (by decide) (by decide)
  exact ⟨h.1, h3.1, h3.2.1⟩

/-- C9: `queryReady` polled in `Idle` (running, nothing started) fails with
`fError = true` and last error `NotMeasuring`; polled while not running
(`Uninitialized` or `End`) it fails with `fError = true` and last error
`Uninitialized`; the state is unchanged in both cases. -/
theorem queryReady_idle_or_not_running (d : Driver) (env : BusEnv) :
    (d.state = State.Idle →
      (queryReady env d).ret = false ∧ (queryReady env d).fError = some true ∧
      (queryReady env d).drv.lastError = Error.NotMeasuring ∧
      (queryReady env d).drv.state = State.Idle) ∧
    (d.state = State.Uninitialized ∨ d.state = State.End →
      (queryReady env d).ret = false ∧ (queryReady env d).fError = some true ∧
      (queryReady env d).drv.lastError = Error.Uninitialized ∧
      (queryReady env d).drv.state = d.state) := by
  constructor
  · intro h
    simp [queryReady, h, isRunning, stateCode]
  · intro h
    rcases h with h | h <;>
      · rw [queryReady_not_running_eq env d (by rw [h]; rfl)]
        simp [h]

/-- C9 witness: the theorem applied to the concrete idle driver and the
concrete uninitialized driver. -/
theorem queryReady_idle_or_not_running_witness :
    (queryReady busAllOk sampleIdleDriver).ret = false ∧
    (queryReady busAllOk sampleIdleDriver).drv.lastError = Error.NotMeasuring ∧
    (queryReady busAllOk sampleUninitDriver).ret = false ∧
    (queryReady busAllOk sampleUninitDriver).drv.lastError = Error.Uninitialized := by
  have h1 := (queryReady_idle_or_not_running sampleIdleDriver busAllOk).1 rfl
  have h2 := (queryReady_idle_or_not_running sampleUninitDriver busAllOk).2 (Or.inl rfl)
  exact ⟨h1.1, h1.2.2.1, h2.1, h2.2.2.1⟩

/-- C10: a `startMeasurement` call that actually starts a measurement
(from `Idle`, reporting success) zeroes the four capture bytes and records
a status image with the valid and new flags both cleared, so a `getLux`
before any capture completes returns 0 and records `InvalidData`. -/
theorem startMeasurement_reinit_capture (d : Driver) (env : BusEnv) (fS : Bool)
    (hidle : d.state = State.Idle)
    (hok : (startMeasurement env d fS).ret = some true) :
    (startMeasurement env d fS).drv.rawChannels.data0 = 0 ∧
    (startMeasurement env d fS).drv.rawChannels.data1 = 0 ∧
    (startMeasurement env d fS).drv.rawChannels.data2 = 0 ∧
    (startMeasurement env d fS).drv.rawChannels.data3 = 0 ∧
    AlsStatus.getValid (startMeasurement env d fS).drv.rawChannels.status = false ∧
    AlsStatus.getNew (startMeasurement env d fS).drv.rawChannels.status = false ∧
    (getLux (startMeasurement env d fS).drv).2 = 0 ∧
    (getLux (startMeasurement env d fS).drv).1.lastError = Error.InvalidData := by
  have hraw : (startMeasurement env d fS).drv.rawChannels =
      DataRegs.setMeasRate (DataRegs.init d.rawChannels)
        (if fS then AlsMeasRate.setRate d.measrate 2000 else d.measrate) := by
    by_cases w1 : env.writeOk ALS_MEAS_RATE_ADDR
        (if fS then AlsMeasRate.setRate d.measrate 2000 else d.measrate)
    · by_cases w2 : env.writeOk ALS_CONTR_ADDR
          (AlsContr.setReset (AlsContr.setActive d.control true) false)
      · simp [startMeasurement, writeRegister, hidle, isRunning, stateCode, w1, w2]
      · exfalso
        simp [startMeasurement, writeRegister, hidle, isRunning, stateCode, w1, w2] at hok
    · exfalso
      simp [startMeasurement, writeRegister, hidle, isRunning, stateCode, w1] at hok
  have hstatus : AlsStatus.getValid
      (AlsStatus.setNew (AlsStatus.setValid 0 false) false) = false := by decide
  have hnew : AlsStatus.getNew
      (AlsStatus.setNew (AlsStatus.setValid 0 false) false) = false := by decide
  refine ⟨?_, ?_, ?_, ?_, ?_, ?_, ?_, ?_⟩ <;>
    simp [hraw, DataRegs.setMeasRate, DataRegs.init, hstatus, hnew,
      getLux, DataRegs.computeLux]

/-- C10 witness: the theorem applied to the concrete idle driver with an
all-success bus, starting a single-shot measurement. -/
theorem startMeasurement_reinit_capture_witness :
    (startMeasurement busAllOk sampleIdleDriver true).drv.rawChannels.data0 = 0 ∧
    AlsStatus.getValid
      (startMeasurement busAllOk sampleIdleDriver true).drv.rawChannels.status = false ∧
    (getLux (startMeasurement busAllOk sampleIdleDriver true).drv).2 = 0 ∧
    (getLux (startMeasurement busAllOk sampleIdleDriver true).drv).1.lastError
      = Error.InvalidData := by
  have h := startMeasurement_reinit_capture sampleIdleDriver busAllOk true rfl (by decide)
  exact ⟨h.1, h.2.2.2.2.1, h.2.2.2.2.2.2.1, h.2.2.2.2.2.2.2⟩

end Ltr329
